import Mathlib

/-!
Shallow embedding of the Yelp Top Places service (src/app.py) and proofs
about its specification.

Modelling conventions:
* Python floats are embedded as rationals (ℚ); every constant in app.py
  (3.8, coordinates, ratings) is exactly representable, and every claim
  checked here is robust to that choice.
* Python ints are embedded as ℤ, non-negative counters/time as ℕ.
* The `requests` call is embedded as an `UpstreamBehavior` parameter
  describing what the one outbound HTTP GET would do; `search_yelp`
  maps that behaviour to records or a typed `HTTPError`, mirroring the
  try/except block of app.py.
* The module-level `cachetools.TTLCache(maxsize=500, ttl=600)` is
  embedded as an explicit association list (newest first) threaded
  through the handler, with insertion timestamps and the fixed TTL.
-/

/-- `PRIOR_RATING = 3.8` in app.py: C, the global average rating assumption. -/
def PRIOR_RATING : ℚ := 3.8

/-- `DAMPING_FACTOR = 150` in app.py: m, minimum reviews needed to trust a rating. -/
def DAMPING_FACTOR : ℚ := 150

/-- Embedding of `calculate_bayesian_score(rating, review_count)` from app.py:
`(v / (v + m)) * R + (m / (v + m)) * C`. -/
def calculate_bayesian_score (rating : ℚ) (review_count : ℤ) : ℚ :=
  let v : ℚ := review_count
  let m : ℚ := DAMPING_FACTOR
  let R : ℚ := rating
  let C : ℚ := PRIOR_RATING
  (v / (v + m)) * R + (m / (v + m)) * C

/-- Python `round(x)` to an integer: round half to even (banker's rounding). -/
def pyRoundInt (q : ℚ) : ℤ :=
  let f : ℤ := ⌊q⌋
  let r : ℚ := q - f
  if r < 1/2 then f
  else if 1/2 < r then f + 1
  else if f % 2 = 0 then f else f + 1

/-- Python `round(x, 2)` as used in `round(score, 2)` in app.py. -/
def round2 (q : ℚ) : ℚ := (pyRoundInt (q * 100) : ℚ) / 100

/-- Python `int(x)` applied to a float: truncation toward zero
(`int(biz.get("distance", 0))` in app.py). -/
def pyInt (q : ℚ) : ℤ := if 0 ≤ q then ⌊q⌋ else ⌈q⌉

/-- Python `s[:n]` on a string. -/
def pySlice (n : ℕ) (s : String) : String := ⟨s.data.take n⟩

/-- Python `s.replace(" ", "")`: every space character removed. -/
def pyStripSpaces (s : String) : String := ⟨s.data.filter (fun c => c ≠ ' ')⟩

/-- Python `s.split(",")`: split on every comma, keeping empty chunks
(so the empty string yields one empty chunk). -/
def pySplitComma (s : String) : List String :=
  (s.data.splitOn ',').map (fun l => ⟨l⟩)

/-- The pydantic `BusinessResult` model of app.py. -/
structure BusinessResult where
  name : String
  rating : ℚ
  review_count : ℤ
  score : ℚ
  price : Option String
  distance_m : ℤ
  address : String
  url : String
  yelp_id : String
deriving DecidableEq, Repr

/-- The `center` dict built by app.py. -/
structure Center where
  lat : ℚ
  lng : ℚ
  radius_m : ℤ
deriving DecidableEq, Repr

/-- The pydantic `TopPlacesResponse` model of app.py.  `attribution` has the
pydantic default string; `get_top_places` never overrides it, so the
handler embedding always fills in that same string. -/
structure TopPlacesResponse where
  term : String
  center : Center
  count : ℕ
  results : List BusinessResult
  attribution : String
deriving DecidableEq, Repr

/-- A raw business record as returned by the Yelp API: a JSON dict whose
fields may all be absent (`biz.get(...)` in app.py).  `display_address`
models `location.get("display_address", [])` (absent location or absent
list both yield `[]`). -/
structure YelpBiz where
  name : Option String
  rating : Option ℚ
  review_count : Option ℤ
  price : Option String
  distance : Option ℚ
  display_address : List String
  url : Option String
  id : Option String
deriving DecidableEq, Repr

/-- `HTTPException(status_code=..., detail=...)` from FastAPI, as raised by
app.py. -/
structure HTTPError where
  status_code : ℕ
  detail : String
deriving DecidableEq, Repr

/-- What the single outbound `requests.get` would do: deliver an HTTP
response (status, body text, parsed `businesses` list), raise
`requests.Timeout`, or raise another `requests.RequestException`. -/
inductive UpstreamBehavior where
  | httpResponse (status : ℕ) (text : String) (businesses : List YelpBiz)
  | timeout
  | requestError (msg : String)
deriving DecidableEq, Repr

/-- Embedding of the response handling of `search_yelp` in app.py
(the try/except block, lines 119-147).  The request-shaping of the params
dict (radius and page-size caps, price space-stripping) does not influence
which branch is taken; the upstream's reaction is the `UpstreamBehavior`
argument.  `HTTPException`s raised inside the `try` are not
`requests.RequestException`s, so they propagate unchanged. -/
def search_yelp (u : UpstreamBehavior) : Except HTTPError (List YelpBiz) :=
  match u with
  | .httpResponse status text businesses =>
      if status = 429 then
        .error ⟨429, "Yelp API rate limit exceeded. Please retry in a moment."⟩
      else if status ≠ 200 then
        .error ⟨502, "Yelp API error: " ++ toString status ++ " - " ++ pySlice 200 text⟩
      else
        .ok businesses
  | .timeout => .error ⟨504, "Yelp API request timeout"⟩
  | .requestError msg =>
      .error ⟨502, "Yelp API request failed: " ++ msg⟩

/-- The loop body of `get_top_places` that turns one raw Yelp record into a
`BusinessResult` (app.py lines 199-218): missing fields default via
`.get(..., default)`, the score is the rounded Bayesian score. -/
def build_result (biz : YelpBiz) : BusinessResult :=
  let rating := biz.rating.getD 0
  let review_count := biz.review_count.getD 0
  let score := calculate_bayesian_score rating review_count
  { name := biz.name.getD "Unknown"
    rating := rating
    review_count := review_count
    score := round2 score
    price := biz.price
    distance_m := pyInt (biz.distance.getD 0)
    address := String.intercalate ", " biz.display_address
    url := biz.url.getD ""
    yelp_id := biz.id.getD "" }

/-- Python `scored_results.sort(key=lambda x: x.score, reverse=True)`:
a stable sort placing higher scores first.  `List.mergeSort` with the
comparison "score of the left is at least score of the right" is stable
in exactly the same sense as CPython's sort. -/
def sort_by_score_desc (l : List BusinessResult) : List BusinessResult :=
  l.mergeSort (fun a b => decide (b.score ≤ a.score))

/-- `ttl=600` of the module-level `TTLCache` in app.py (seconds). -/
def CACHE_TTL : ℕ := 600

/-- `maxsize=500` of the module-level `TTLCache` in app.py. -/
def CACHE_MAXSIZE : ℕ := 500

/-- The `TTLCache` contents: newest-first association list of
(key, insertion time, stored response). -/
abbrev Cache := List (String × ℕ × TopPlacesResponse)

/-- `cache_key in cache` / `cache[cache_key]` of app.py: a stored entry is
visible exactly while the current time is before insertion time plus TTL
(cachetools marks an entry expired once `timer() >= entry.expires` with
`expires = insertion + ttl`). -/
def cache_lookup (c : Cache) (now : ℕ) (k : String) : Option TopPlacesResponse :=
  match c.find? (fun e => e.1 == k) with
  | some e => if now < e.2.1 + CACHE_TTL then some e.2.2 else none
  | none => none

/-- `cache[cache_key] = response` of app.py: replace any entry with the same
key and keep at most `CACHE_MAXSIZE` entries, the new entry always kept
(cachetools evicts other entries, never the one just inserted; the exact
eviction order among old entries is irrelevant to every claim). -/
def cache_insert (c : Cache) (now : ℕ) (k : String) (v : TopPlacesResponse) : Cache :=
  (k, now, v) :: (c.filter (fun e => e.1 ≠ k)).take (CACHE_MAXSIZE - 1)

/-- The validated query-parameter record of `get_top_places` after FastAPI
binding (app.py lines 153-160). -/
structure TopQuery where
  term : String
  lat : ℚ
  lng : ℚ
  radius_m : ℤ
  limit : ℤ
  open_now : Bool
  price : Option String
deriving DecidableEq, Repr

/-- A raw inbound request to GET /top: each query parameter either absent
or already coerced to its declared type. -/
structure RawRequest where
  term : Option String
  lat : Option ℚ
  lng : Option ℚ
  radius_m : Option ℤ
  limit : Option ℤ
  open_now : Option Bool
  price : Option String
deriving DecidableEq, Repr

/-- FastAPI parameter binding for GET /top, from the `Query(...)`
declarations in app.py: `term`, `lat`, `lng` required (absence is a 422
client error), `lat` in [-90, 90], `lng` in [-180, 180], `radius_m` in
[100, 40000] defaulting to 5000, `limit` in [1, 50] defaulting to 10,
`open_now` defaulting to False, `price` optional and unconstrained here.
Note `term` carries no constraint beyond presence. -/
def parse_request (r : RawRequest) : Except HTTPError TopQuery :=
  match r.term with
  | none => .error ⟨422, "Field required: term"⟩
  | some term =>
    match r.lat with
    | none => .error ⟨422, "Field required: lat"⟩
    | some lat =>
      match r.lng with
      | none => .error ⟨422, "Field required: lng"⟩
      | some lng =>
        if lat < -90 ∨ 90 < lat then .error ⟨422, "lat out of range"⟩
        else if lng < -180 ∨ 180 < lng then .error ⟨422, "lng out of range"⟩
        else
          let radius_m := r.radius_m.getD 5000
          let limit := r.limit.getD 10
          if radius_m < 100 ∨ 40000 < radius_m then .error ⟨422, "radius_m out of range"⟩
          else if limit < 1 ∨ 50 < limit then .error ⟨422, "limit out of range"⟩
          else .ok ⟨term, lat, lng, radius_m, limit, r.open_now.getD false, r.price⟩

/-- The price-format check of app.py lines 170-177:
`set(price.replace(" ", "").split(",")).issubset({"1","2","3","4"})`. -/
def price_parts_valid (price : String) : Bool :=
  (pySplitComma (pyStripSpaces price)).all (fun part => decide (part ∈ ["1", "2", "3", "4"]))

/-- Whether app.py raises the 400 `HTTPException`: the check runs only when
`price` is truthy (present and non-empty) and its parts fail the subset
test. -/
def price_rejected (price : Option String) : Bool :=
  match price with
  | none => false
  | some p => if p = "" then false else ! price_parts_valid p

/-- The f-string cache key of app.py line 180:
`term|lat|lng|radius_m|open_now|price or ""`.  Python renders booleans as
`True`/`False`; note that neither `limit` nor any normalization of `price`
enters the key. -/
def cache_key (term : String) (lat lng : ℚ) (radius_m : ℤ) (open_now : Bool)
    (price : Option String) : String :=
  term ++ "|" ++ toString lat ++ "|" ++ toString lng ++ "|" ++ toString radius_m
    ++ "|" ++ (if open_now then "True" else "False") ++ "|" ++ price.getD ""

/-- What one call to `get_top_places` produced: the HTTP outcome, the cache
contents afterwards, and whether the upstream API was contacted. -/
structure HandlerResult where
  response : Except HTTPError TopPlacesResponse
  cache : Cache
  called_upstream : Bool
deriving Repr

/-- Embedding of the body of `get_top_places` (app.py lines 161-237), after
FastAPI parameter binding: validate the price format, consult the cache,
otherwise call upstream, score, sort, truncate, build the response
envelope and store it. -/
def get_top_places (now : ℕ) (c : Cache) (upstream : UpstreamBehavior)
    (q : TopQuery) : HandlerResult :=
  if price_rejected q.price then
    ⟨.error ⟨400, "Invalid price format. Use comma-separated values: 1,2,3,4"⟩, c, false⟩
  else
    let key := cache_key q.term q.lat q.lng q.radius_m q.open_now q.price
    match cache_lookup c now key with
    | some resp => ⟨.ok resp, c, false⟩
    | none =>
      match search_yelp upstream with
      | .error e => ⟨.error e, c, true⟩
      | .ok businesses =>
        let scored_results := businesses.map build_result
        let sorted := sort_by_score_desc scored_results
        let final_results := sorted.take q.limit.toNat
        let resp : TopPlacesResponse :=
          { term := q.term
            center := ⟨q.lat, q.lng, q.radius_m⟩
            count := final_results.length
            results := final_results
            attribution := "Results powered by Yelp" }
        ⟨.ok resp, cache_insert c now key resp, true⟩

/-- The full GET /top endpoint: FastAPI binding followed by the handler
body; binding failures never reach the cache or the upstream client. -/
def handle_top (now : ℕ) (c : Cache) (upstream : UpstreamBehavior)
    (r : RawRequest) : HandlerResult :=
  match parse_request r with
  | .error e => ⟨.error e, c, false⟩
  | .ok q => get_top_places now c upstream q

/-- The normalized price-tier set of a price parameter value: the set of
chunks obtained after space removal and comma splitting. -/
def price_tier_set (p : String) : Finset String :=
  (pySplitComma (pyStripSpaces p)).toFinset

/-- A concrete valid query used by several witnesses. -/
def demoQuery : TopQuery := ⟨"pizza", 0, 0, 5000, 10, false, none⟩

/-- A concrete healthy upstream returning zero businesses. -/
def demoUpstream : UpstreamBehavior := .httpResponse 200 "" []

/-- The response the handler builds for `demoQuery` against `demoUpstream`. -/
def demoResponse : TopPlacesResponse :=
  ⟨"pizza", ⟨0, 0, 5000⟩, 0, [], "Results powered by Yelp"⟩

/-- The cache contents after serving `demoQuery` at time 0 on an empty cache. -/
def demoCache : Cache :=
  [(cache_key "pizza" 0 0 5000 false none, 0, demoResponse)]

/-- A query whose price text contains the digit 5, outside `{1,2,3,4}`. -/
def badPriceQuery : TopQuery := ⟨"pizza", 0, 0, 5000, 10, false, some "5"⟩

/-- A raw Yelp record carrying a negative review count. -/
def negReviewBiz : YelpBiz := ⟨some "X", some 5, some (-1), none, none, [], none, none⟩

/-- A raw Yelp record whose review count is exactly minus the damping
factor, driving the scorer's denominator to zero. -/
def zeroDenomBiz : YelpBiz := ⟨some "Y", some 5, some (-150), none, none, [], none, none⟩

/-- A raw Yelp record with every optional field absent. -/
def missingFieldsBiz : YelpBiz := ⟨none, none, none, none, none, [], none, none⟩

/-- A raw /top request whose term parameter is present but empty. -/
def emptyTermRequest : RawRequest := ⟨some "", some 0, some 0, none, none, none, none⟩

/-- The response the handler builds for `emptyTermRequest` against
`demoUpstream`: the empty term is forwarded, not rejected. -/
def emptyTermResponse : TopPlacesResponse :=
  ⟨"", ⟨0, 0, 5000⟩, 0, [], "Results powered by Yelp"⟩

/-- A raw /top request with no term parameter at all. -/
def noTermRequest : RawRequest := ⟨none, some 0, some 0, none, none, none, none⟩

/-- C1: for every rating R and review count v ≥ 0, `calculate_bayesian_score`
computes `(v/(v+m))·R + (m/(v+m))·C` with the fixed constants C = 3.8
(PRIOR_RATING) and m = 150 (DAMPING_FACTOR), and in particular scoring with
zero reviews yields exactly the prior 3.8 whatever the rating. -/
theorem calculate_bayesian_score_formula (R : ℚ) (v : ℤ) (_hv : 0 ≤ v) :
    calculate_bayesian_score R v
      = ((v : ℚ) / ((v : ℚ) + 150)) * R + (150 / ((v : ℚ) + 150)) * 3.8 ∧
    PRIOR_RATING = 3.8 ∧ DAMPING_FACTOR = 150 ∧
    calculate_bayesian_score R 0 = 3.8 := by
  refine ⟨rfl, rfl, rfl, ?_⟩
  norm_num [calculate_bayesian_score, DAMPING_FACTOR, PRIOR_RATING]

/-- Witness for C1 at R = 4.2, v = 7. -/
theorem calculate_bayesian_score_formula_witness :
    calculate_bayesian_score 4.2 7
      = (((7 : ℤ) : ℚ) / (((7 : ℤ) : ℚ) + 150)) * 4.2
          + (150 / (((7 : ℤ) : ℚ) + 150)) * 3.8 ∧
    PRIOR_RATING = 3.8 ∧ DAMPING_FACTOR = 150 ∧
    calculate_bayesian_score 4.2 0 = 3.8 :=
  calculate_bayesian_score_formula 4.2 7 (by norm_num)

/-- C2 counterexample: with C = 3.8 and m = 150 the scorer yields 65/17 ≈ 3.82
for rating 5.0 with 3 reviews and 203/45 ≈ 4.51 for rating 4.6 with 1200
reviews; both miss the claimed figures 3.88 and 4.58 by more than 0.05, far
beyond any rounding tolerance, and the two-decimal scores app.py reports are
3.82 and 4.51. -/
theorem bayesian_docstring_examples_counterexample :
    calculate_bayesian_score 5 3 = 65/17 ∧
    |calculate_bayesian_score 5 3 - 3.88| > 1/20 ∧
    round2 (calculate_bayesian_score 5 3) = 3.82 ∧
    calculate_bayesian_score 4.6 1200 = 203/45 ∧
    |calculate_bayesian_score 4.6 1200 - 4.58| > 1/20 ∧
    round2 (calculate_bayesian_score 4.6 1200) = 4.51 ∧
    (3.82 : ℚ) ≠ 3.88 ∧ (4.51 : ℚ) ≠ 4.58 := by
  norm_num [calculate_bayesian_score, DAMPING_FACTOR, PRIOR_RATING, round2, pyRoundInt,
    lt_abs]

/-- C2 amended: with prior C = 3.8 and damping m = 150 the scorer yields
approximately 3.82 (within rounding tolerance) for rating 5.0 with 3
reviews, and approximately 4.51 for rating 4.6 with 1200 reviews; these are
also exactly the two-decimal scores app.py reports. -/
theorem bayesian_docstring_examples :
    |calculate_bayesian_score 5 3 - 3.82| ≤ 1/200 ∧
    round2 (calculate_bayesian_score 5 3) = 3.82 ∧
    |calculate_bayesian_score 4.6 1200 - 4.51| ≤ 1/200 ∧
    round2 (calculate_bayesian_score 4.6 1200) = 4.51 := by
  norm_num [calculate_bayesian_score, DAMPING_FACTOR, PRIOR_RATING, round2, pyRoundInt,
    abs_le]



theorem cache_lookup_insert_self (c : Cache) (t now : ℕ) (k : String)
    (v : TopPlacesResponse) :
    cache_lookup (cache_insert c t k v) now k
      = if now < t + CACHE_TTL then some v else none := by
  simp [cache_lookup, cache_insert]

theorem get_top_places_success_inv {now : ℕ} {c : Cache} {u : UpstreamBehavior}
    {q : TopQuery} {resp : TopPlacesResponse} {c2 : Cache}
    (h : get_top_places now c u q = ⟨.ok resp, c2, true⟩) :
    price_rejected q.price = false ∧
    cache_lookup c now (cache_key q.term q.lat q.lng q.radius_m q.open_now q.price) = none ∧
    c2 = cache_insert c now (cache_key q.term q.lat q.lng q.radius_m q.open_now q.price) resp ∧
    resp.results.length ≤ q.limit.toNat := by
  by_cases hprice : price_rejected q.price = true
  · rw [get_top_places] at h
    simp [hprice] at h
  · cases hmiss : cache_lookup c now (cache_key q.term q.lat q.lng q.radius_m q.open_now q.price) with
    | some r =>
      rw [get_top_places] at h
      simp [hprice, hmiss] at h
    | none =>
      cases hyelp : search_yelp u with
      | error e =>
        rw [get_top_places] at h
        simp [hprice, hmiss, hyelp] at h
      | ok businesses =>
        rw [get_top_places] at h
        simp only [hprice, if_false, Bool.false_eq_true, if_neg, hmiss, hyelp,
          HandlerResult.mk.injEq, Except.ok.injEq, and_true] at h
        obtain ⟨hresp, hcache⟩ := h
        refine ⟨by simpa using hprice, rfl, ?_, ?_⟩
        · rw [← hcache, ← hresp]
        · rw [← hresp]
          simp

theorem get_top_places_hit {now : ℕ} {c : Cache} {u : UpstreamBehavior} {q : TopQuery}
    {resp : TopPlacesResponse}
    (hp : price_rejected q.price = false)
    (hc : cache_lookup c now (cache_key q.term q.lat q.lng q.radius_m q.open_now q.price)
        = some resp) :
    get_top_places now c u q = ⟨.ok resp, c, false⟩ := by
  rw [get_top_places]
  simp [hp, hc]

theorem demo_first_call :
    get_top_places 0 [] demoUpstream demoQuery = ⟨.ok demoResponse, demoCache, true⟩ := by
  rw [get_top_places]
  simp [demoQuery, demoUpstream, demoResponse, demoCache, price_rejected,
    cache_lookup, search_yelp, cache_insert, sort_by_score_desc]

/-- C3: if a second call arrives with identical query parameters while the
entry stored by a successful upstream-fetching first call is still within
its TTL, the handler answers from the cache: the stored response is
returned unchanged, the cache is untouched, and the upstream client is not
contacted, whatever the upstream would have answered. -/
theorem cached_second_call_no_upstream (t1 t2 : ℕ) (c : Cache)
    (u1 u2 : UpstreamBehavior) (q : TopQuery) (resp : TopPlacesResponse) (c1 : Cache)
    (h1 : get_top_places t1 c u1 q = ⟨.ok resp, c1, true⟩)
    (h2 : t2 < t1 + CACHE_TTL) :
    get_top_places t2 c1 u2 q = ⟨.ok resp, c1, false⟩ := by
  obtain ⟨hp, -, hc1, -⟩ := get_top_places_success_inv h1
  subst hc1
  exact get_top_places_hit hp (by rw [cache_lookup_insert_self]; simp [h2])

/-- Witness for C3: a first call at time 0 populates the cache; a second
call at time 599 (inside the 600-second TTL) is served from it even though
the upstream would now answer HTTP 500. -/
theorem cached_second_call_no_upstream_witness :
    get_top_places 599 demoCache (.httpResponse 500 "boom" []) demoQuery
      = ⟨.ok demoResponse, demoCache, false⟩ :=
  cached_second_call_no_upstream 0 599 [] demoUpstream (.httpResponse 500 "boom" [])
    demoQuery demoResponse demoCache demo_first_call (by norm_num [CACHE_TTL])

/-- C4: the cache key omits the limit parameter, so a second request equal
in term, lat, lng, radius_m, open_now and price but with a different limit
hits the entry stored for the first request within the TTL window: it gets
the first request's response back (whose result list was truncated to the
FIRST request's limit) without contacting upstream. -/
theorem cache_key_omits_limit (t1 t2 : ℕ) (c : Cache)
    (u1 u2 : UpstreamBehavior) (q : TopQuery) (limit2 : ℤ)
    (resp : TopPlacesResponse) (c1 : Cache)
    (h1 : get_top_places t1 c u1 q = ⟨.ok resp, c1, true⟩)
    (h2 : t2 < t1 + CACHE_TTL) :
    get_top_places t2 c1 u2 { q with limit := limit2 } = ⟨.ok resp, c1, false⟩ ∧
    resp.results.length ≤ q.limit.toNat := by
  obtain ⟨hp, -, hc1, hlen⟩ := get_top_places_success_inv h1
  subst hc1
  refine ⟨?_, hlen⟩
  exact get_top_places_hit hp (by rw [cache_lookup_insert_self]; simp [h2])

/-- Witness for C4: the first call uses limit 10, the second limit 3; the
second still gets the cached response without an upstream call. -/
theorem cache_key_omits_limit_witness :
    get_top_places 599 demoCache (.httpResponse 500 "boom" [])
        { demoQuery with limit := 3 } = ⟨.ok demoResponse, demoCache, false⟩ ∧
    demoResponse.results.length ≤ demoQuery.limit.toNat :=
  cache_key_omits_limit 0 599 [] demoUpstream (.httpResponse 500 "boom" [])
    demoQuery 3 demoResponse demoCache demo_first_call (by norm_num [CACHE_TTL])

theorem score_desc_trans : ∀ (a b c : BusinessResult),
    decide (b.score ≤ a.score) = true → decide (c.score ≤ b.score) = true →
    decide (c.score ≤ a.score) = true := by
  intro a b c hab hbc
  simp only [decide_eq_true_eq] at hab hbc ⊢
  exact le_trans hbc hab

theorem score_desc_total : ∀ (a b : BusinessResult),
    (decide (b.score ≤ a.score) || decide (a.score ≤ b.score)) = true := by
  intro a b
  simp only [Bool.or_eq_true, decide_eq_true_eq]
  exact le_total b.score a.score

theorem sort_by_score_desc_perm (l : List BusinessResult) : (sort_by_score_desc l).Perm l :=
  List.mergeSort_perm l _

theorem sort_by_score_desc_sorted (l : List BusinessResult) :
    (sort_by_score_desc l).Pairwise (fun a b => b.score ≤ a.score) := by
  have h := List.sorted_mergeSort score_desc_trans score_desc_total l
  exact h.imp (fun hab => of_decide_eq_true hab)

theorem sort_by_score_desc_stable (l : List BusinessResult) (s : ℚ) :
    (sort_by_score_desc l).filter (fun r => decide (r.score = s))
      = l.filter (fun r => decide (r.score = s)) := by
  have hmemsc : ∀ r ∈ l.filter (fun r => decide (r.score = s)), r.score = s := by
    intro r hr
    exact of_decide_eq_true (List.mem_filter.mp hr).2
  have hpair : (l.filter (fun r => decide (r.score = s))).Pairwise
      (fun a b => decide (b.score ≤ a.score) = true) := by
    apply List.pairwise_of_forall_mem_list
    intro a ha b hb
    simp only [decide_eq_true_eq]
    rw [hmemsc a ha, hmemsc b hb]
  have hsub : List.Sublist (l.filter (fun r => decide (r.score = s))) (sort_by_score_desc l) :=
    List.sublist_mergeSort score_desc_trans score_desc_total hpair (List.filter_sublist l)
  have hself : (l.filter (fun r => decide (r.score = s))).filter
      (fun r => decide (r.score = s)) = l.filter (fun r => decide (r.score = s)) :=
    List.filter_eq_self.mpr (fun a ha => (List.mem_filter.mp ha).2)
  have hsub2 : List.Sublist (l.filter (fun r => decide (r.score = s)))
      ((sort_by_score_desc l).filter (fun r => decide (r.score = s))) := by
    have h3 := hsub.filter (fun r => decide (r.score = s))
    rwa [hself] at h3
  have hlen : ((sort_by_score_desc l).filter (fun r => decide (r.score = s))).length
      = (l.filter (fun r => decide (r.score = s))).length :=
    ((sort_by_score_desc_perm l).filter _).length_eq
  exact (hsub2.eq_of_length hlen.symm).symm

theorem sort_by_score_desc_take_drop (l : List BusinessResult) (N : ℕ)
    (i : Fin (((sort_by_score_desc l).take N).length))
    (j : Fin (((sort_by_score_desc l).drop N).length)) :
    (((sort_by_score_desc l).drop N).get j).score
      ≤ (((sort_by_score_desc l).take N).get i).score := by
  have hs := sort_by_score_desc_sorted l
  rw [List.pairwise_iff_getElem] at hs
  have hiN : (i : ℕ) < N := Nat.lt_of_lt_of_le i.isLt (List.length_take_le N _)
  have hiM : (i : ℕ) < (sort_by_score_desc l).length :=
    Nat.lt_of_lt_of_le i.isLt (List.take_sublist N _).length_le
  have hjM : N + (j : ℕ) < (sort_by_score_desc l).length := by
    have hj2 : (j : ℕ) < (sort_by_score_desc l).length - N :=
      Nat.lt_of_lt_of_le j.isLt (le_of_eq (List.length_drop N _))
    omega
  have h := hs i (N + j) hiM hjM (by omega)
  simpa [List.get_eq_getElem] using h

/-- C5: the pipeline's sort is a stable descending sort by score, so after
truncation the first N entries are exactly the N highest-scoring ones in
descending order: the sorted list is a permutation of the input, adjacent
scores are non-increasing, entries of any fixed score keep their original
relative order, and every entry kept by `take N` scores at least as high as
every entry discarded by it. -/
theorem pipeline_sort_stable_topN (l : List BusinessResult) (N : ℕ) :
    (sort_by_score_desc l).Perm l ∧
    (sort_by_score_desc l).Pairwise (fun a b => b.score ≤ a.score) ∧
    (∀ s : ℚ, (sort_by_score_desc l).filter (fun r => decide (r.score = s))
        = l.filter (fun r => decide (r.score = s))) ∧
    (∀ (i : Fin (((sort_by_score_desc l).take N).length))
        (j : Fin (((sort_by_score_desc l).drop N).length)),
      (((sort_by_score_desc l).drop N).get j).score
        ≤ (((sort_by_score_desc l).take N).get i).score) :=
  ⟨sort_by_score_desc_perm l, sort_by_score_desc_sorted l,
    fun s => sort_by_score_desc_stable l s,
    fun i j => sort_by_score_desc_take_drop l N i j⟩

/-- C6 counterexample: app.py defaults a MISSING review_count to zero, but a
present NEGATIVE review_count is passed to the scorer unchanged: for a record
with review_count -1 the scorer receives -1, and a record with review_count
-150 drives the scorer's denominator v + m to exactly zero (a
ZeroDivisionError in the Python code). -/
theorem negative_review_count_not_sanitized :
    (build_result negReviewBiz).review_count = -1 ∧
    (build_result negReviewBiz).score = round2 (calculate_bayesian_score 5 (-1)) ∧
    ((-1 : ℤ) < 0) ∧
    (build_result zeroDenomBiz).review_count = -150 ∧
    (((-150 : ℤ) : ℚ) + DAMPING_FACTOR = 0) := by
  refine ⟨rfl, rfl, by norm_num, rfl, by norm_num [DAMPING_FACTOR]⟩

/-- C6 amended: a missing review_count is treated as zero before scoring, and
provided the upstream record carries no negative review_count (the Yelp API
never does), the value passed to the scorer is non-negative and the scorer's
denominator v + m is positive; a present negative count, however, would be
passed through unchanged. -/
theorem review_count_default_nonneg (biz : YelpBiz)
    (h : ∀ n, biz.review_count = some n → 0 ≤ n) :
    (build_result biz).review_count = biz.review_count.getD 0 ∧
    0 ≤ (build_result biz).review_count ∧
    (0 : ℚ) < ((build_result biz).review_count : ℚ) + DAMPING_FACTOR := by
  have hnn : 0 ≤ biz.review_count.getD 0 := by
    cases hrc : biz.review_count with
    | none => simp
    | some n => simpa using h n hrc
  refine ⟨rfl, hnn, ?_⟩
  have hcast : (0 : ℚ) ≤ ((build_result biz).review_count : ℚ) := by
    exact_mod_cast hnn
  have hm : (0 : ℚ) < DAMPING_FACTOR := by norm_num [DAMPING_FACTOR]
  linarith

/-- Witness for C6 amended: a record with every field absent scores against
review count 0 and a positive denominator. -/
theorem review_count_default_nonneg_witness :
    (build_result missingFieldsBiz).review_count = missingFieldsBiz.review_count.getD 0 ∧
    0 ≤ (build_result missingFieldsBiz).review_count ∧
    (0 : ℚ) < ((build_result missingFieldsBiz).review_count : ℚ) + DAMPING_FACTOR :=
  review_count_default_nonneg missingFieldsBiz
    (by intro n hn; simp [missingFieldsBiz] at hn)

/-- C7 counterexample: the price texts "1,2" and "2,1" denote the same
price-tier set, yet get_top_places computes different cache keys for two
queries that agree on term, center, radius and open-now flag and differ only
in that ordering, because the raw price text is interpolated into the key
without normalization. -/
theorem cache_key_not_order_independent :
    price_tier_set "1,2" = price_tier_set "2,1" ∧
    cache_key "pizza" 0 0 5000 false (some "1,2")
      ≠ cache_key "pizza" 0 0 5000 false (some "2,1") := by
  constructor
  · decide
  · intro h
    rw [cache_key, cache_key] at h
    have h2 := congrArg String.data h
    simp only [String.data_append] at h2
    have h3 := List.append_cancel_left h2
    simp at h3

/-- C7 amended: the cache key is determined by term, lat, lng, radius_m,
open_now and the LITERAL price text (with an absent price and the empty
price identified by the truthy `price or ""`); it is not order-independent
in the price tiers, so only textually identical price parameters share a
key. -/
theorem cache_key_determined_by_raw_price (term : String) (lat lng : ℚ)
    (radius_m : ℤ) (open_now : Bool) (p1 p2 : Option String)
    (h : p1.getD "" = p2.getD "") :
    cache_key term lat lng radius_m open_now p1
      = cache_key term lat lng radius_m open_now p2 := by
  rw [cache_key, cache_key, h]

/-- Witness for C7 amended: an absent price and an empty price text produce
the same cache key. -/
theorem cache_key_determined_by_raw_price_witness :
    cache_key "pizza" 0 0 5000 false none = cache_key "pizza" 0 0 5000 false (some "") :=
  cache_key_determined_by_raw_price "pizza" 0 0 5000 false none (some "") rfl

theorem mem_of_mem_intersperse {α : Type} {sep chunk : α} :
    ∀ {parts : List α}, chunk ∈ parts.intersperse sep → chunk ∈ parts ∨ chunk = sep
  | [], h => by simp at h
  | [p], h => by
      rw [List.intersperse_singleton] at h
      exact Or.inl h
  | p :: q :: rest, h => by
      rw [List.intersperse_cons_cons] at h
      rcases List.mem_cons.mp h with h1 | h
      · subst h1
        exact Or.inl (List.mem_cons_self _ _)
      rcases List.mem_cons.mp h with h2 | h3
      · exact Or.inr h2
      · rcases mem_of_mem_intersperse h3 with h4 | h4
        · exact Or.inl (List.mem_cons_of_mem p h4)
        · exact Or.inr h4

theorem exists_part_of_mem_splitOn {c : Char} {l : List Char}
    (hc : c ∈ l) (hne : c ≠ ',') :
    ∃ part, part ∈ l.splitOn ',' ∧ c ∈ part := by
  have h : [','].intercalate (l.splitOn ',') = l := List.intercalate_splitOn l ','
  rw [← h] at hc
  rw [List.intercalate] at hc
  obtain ⟨chunk, hchunk, hcchunk⟩ := List.exists_of_mem_flatten hc
  rcases mem_of_mem_intersperse hchunk with hmem | hsep
  · exact ⟨chunk, hmem, hcchunk⟩
  · subst hsep
    simp only [List.mem_singleton] at hcchunk
    exact absurd hcchunk hne

theorem price_parts_valid_false_of_bad_char {p : String} {c : Char}
    (hc : c ∈ p.data) (hbad : c ∉ ['1', '2', '3', '4', ',', ' ']) :
    price_parts_valid p = false := by
  simp only [List.mem_cons, List.not_mem_nil, or_false, not_or] at hbad
  obtain ⟨h1, h2, h3, h4, hcomma, hspace⟩ := hbad
  have hc2 : c ∈ (pyStripSpaces p).data := by
    rw [pyStripSpaces]
    exact List.mem_filter.mpr ⟨hc, by simpa using hspace⟩
  obtain ⟨part, hpart, hcpart⟩ := exists_part_of_mem_splitOn hc2 hcomma
  rw [price_parts_valid, List.all_eq_false]
  refine ⟨⟨part⟩, ?_, ?_⟩
  · rw [pySplitComma]
    exact List.mem_map.mpr ⟨part, hpart, rfl⟩
  · simp only [decide_eq_true_eq, List.mem_cons, List.not_mem_nil, or_false]
    intro hin
    rcases hin with h | h | h | h
    · have hd : part = ['1'] := congrArg String.data h
      rw [hd, List.mem_singleton] at hcpart
      exact h1 hcpart
    · have hd : part = ['2'] := congrArg String.data h
      rw [hd, List.mem_singleton] at hcpart
      exact h2 hcpart
    · have hd : part = ['3'] := congrArg String.data h
      rw [hd, List.mem_singleton] at hcpart
      exact h3 hcpart
    · have hd : part = ['4'] := congrArg String.data h
      rw [hd, List.mem_singleton] at hcpart
      exact h4 hcpart

/-- C8: a request whose price parameter contains any character outside
the set consisting of 1, 2, 3, 4, comma and space is answered with the 400
client error before the cache or the upstream client is touched: the cache
is returned unchanged and no upstream call is made. -/
theorem invalid_price_rejected_before_upstream (now : ℕ) (c : Cache)
    (u : UpstreamBehavior) (q : TopQuery) (p : String) (ch : Char)
    (hq : q.price = some p) (hmem : ch ∈ p.data)
    (hbad : ch ∉ ['1', '2', '3', '4', ',', ' ']) :
    get_top_places now c u q
      = ⟨.error ⟨400, "Invalid price format. Use comma-separated values: 1,2,3,4"⟩,
         c, false⟩ := by
  have hval := price_parts_valid_false_of_bad_char hmem hbad
  have hpne : p ≠ "" := by
    intro he
    subst he
    simp at hmem
  have hrej : price_rejected q.price = true := by
    rw [hq, price_rejected]
    simp [hpne, hval]
  rw [get_top_places, if_pos hrej]

/-- Witness for C8: price text "5" (the digit five is outside the allowed
characters) is rejected with the 400 error and the upstream is never
contacted. -/
theorem invalid_price_rejected_before_upstream_witness :
    get_top_places 0 [] demoUpstream badPriceQuery
      = ⟨.error ⟨400, "Invalid price format. Use comma-separated values: 1,2,3,4"⟩,
         [], false⟩ :=
  invalid_price_rejected_before_upstream 0 [] demoUpstream badPriceQuery "5" '5'
    rfl (by decide) (by decide)

/-- C9: search_yelp maps upstream outcomes to distinguishable categories:
HTTP 429 becomes a 429 retryable-unavailable error with a retry hint, a
transport timeout becomes a distinct 504 timeout error, any other non-200
status becomes a 502 upstream error whose diagnostic embeds the body text
truncated to 200 characters, any other transport error becomes a 502, and a
200 response yields the business records. -/
theorem search_yelp_error_mapping :
    (∀ (status : ℕ) (text : String) (bs : List YelpBiz),
      search_yelp (.httpResponse status text bs)
        = if status = 429 then
            .error ⟨429, "Yelp API rate limit exceeded. Please retry in a moment."⟩
          else if status = 200 then
            .ok bs
          else
            .error ⟨502, "Yelp API error: " ++ toString status ++ " - " ++ pySlice 200 text⟩) ∧
    search_yelp .timeout = .error ⟨504, "Yelp API request timeout"⟩ ∧
    (∀ msg, search_yelp (.requestError msg)
        = .error ⟨502, "Yelp API request failed: " ++ msg⟩) ∧
    (∀ text, (pySlice 200 text).data.length ≤ 200) := by
  refine ⟨?_, rfl, fun msg => rfl, fun text => ?_⟩
  · intro status text bs
    rw [search_yelp]
    by_cases h429 : status = 429
    · simp [h429]
    · by_cases h200 : status = 200 <;> simp [h429, h200]
  · simp [pySlice]

/-- C10 counterexample: a /top request whose term parameter is present but
EMPTY is not rejected: FastAPI's binding only checks presence, so the
handler proceeds, contacts the upstream client, and answers 200 echoing the
empty term. -/
theorem empty_term_not_rejected :
    (handle_top 0 [] demoUpstream emptyTermRequest).called_upstream = true ∧
    (handle_top 0 [] demoUpstream emptyTermRequest).response = .ok emptyTermResponse := by
  have hparse : parse_request emptyTermRequest
      = .ok ⟨"", 0, 0, 5000, 10, false, none⟩ := by
    rw [parse_request, emptyTermRequest]
    norm_num
  have hrun : get_top_places 0 [] demoUpstream ⟨"", 0, 0, 5000, 10, false, none⟩
      = ⟨.ok emptyTermResponse, [(cache_key "" 0 0 5000 false none, 0, emptyTermResponse)],
         true⟩ := by
    rw [get_top_places]
    simp [price_rejected, cache_lookup, demoUpstream, search_yelp, sort_by_score_desc,
      emptyTermResponse, cache_insert]
  have hred : handle_top 0 [] demoUpstream emptyTermRequest
      = get_top_places 0 [] demoUpstream ⟨"", 0, 0, 5000, 10, false, none⟩ := by
    rw [handle_top, hparse]
  rw [hred, hrun]
  exact ⟨rfl, rfl⟩

/-- C10 amended: the term parameter is required to be PRESENT: a request
without it is rejected by parameter binding with a client error before the
cache or upstream is touched; but an empty term value passes validation and
is forwarded upstream. -/
theorem missing_term_rejected (now : ℕ) (c : Cache) (u : UpstreamBehavior)
    (r : RawRequest) (h : r.term = none) :
    handle_top now c u r = ⟨.error ⟨422, "Field required: term"⟩, c, false⟩ := by
  rw [handle_top, parse_request, h]

/-- Witness for C10 amended: the request with no term parameter at all is
rejected with the 422 client error and no upstream call. -/
theorem missing_term_rejected_witness :
    handle_top 0 [] demoUpstream noTermRequest
      = ⟨.error ⟨422, "Field required: term"⟩, [], false⟩ :=
  missing_term_rejected 0 [] demoUpstream noTermRequest rfl
